import Mathlib

/-!
Verification development for the `python-azure-ci-docs` repository.

The repository has two source files:
* `src/scripts/doc_generator.py` — a batch job that walks a directory tree,
  asks the OpenAI API for a summary of each Python file, and publishes the
  result as Confluence pages mirroring the directory hierarchy;
* `src/app/main.py` — a trivial Flask app with `GET /` and `GET /status`.

This file gives a shallow embedding of the relevant functions and proves
or refutes the specification claims about them.  External HTTP collaborators
(Confluence, OpenAI) are modelled by explicit outcome environments: a list
or function saying what each successive call returns.
-/

namespace DocGen

/-- The JSON payload dictionary `data` built by
`create_or_update_confluence_page` (doc_generator.py lines 196-210).
The `id` and `version` keys are absent (`none`) until the update branch
mutates the dictionary (lines 217-218). Page ids are modelled as `Nat`. -/
structure Payload where
  ptype : String
  title : String
  space : String
  body : String
  ancestors : Option Nat
  id : Option Nat
  version : Option Nat
deriving Repr, DecidableEq

/-- Outcome of one HTTP create/update request inside the retry loop of
`create_or_update_confluence_page`:
* `ok newId` — 2xx response; `response.json().get("id")` yields `newId`;
* `httpError status refetched` — `raise_for_status` raised an `HTTPError`
  with this status; when the status is 409 the code re-fetches id/version
  via `get_confluence_page_id_and_version`, and `refetched` is what that
  re-fetch reports (`none` = page not found);
* `requestError` — some other `requests.exceptions.RequestException`. -/
inductive UpsertOutcome where
  | ok (newId : Option Nat)
  | httpError (status : Nat) (refetched : Option (Nat × Nat))
  | requestError
deriving Repr, DecidableEq

/-- Observable events of one `create_or_update_confluence_page` call:
each HTTP request issued (create via POST or update via PUT, with the
exact payload sent and the outcome received), and each conflict
re-fetch of `(page_id, version)` performed after a 409. -/
inductive UpsertEvent where
  | request (isCreate : Bool) (payload : Payload) (outcome : UpsertOutcome)
  | refetch (result : Option (Nat × Nat))
deriving Repr, DecidableEq

/-- `max_retries` of both retry loops in doc_generator.py (lines 123, 212). -/
def maxRetries : Nat := 3

/-- Code-point-wise lexicographic comparison of character lists, as
Python compares strings. -/
def charListLe : List Char → List Char → Bool
  | [], _ => true
  | _ :: _, [] => false
  | a :: as, b :: bs =>
    if a.toNat < b.toNat then true
    else if b.toNat < a.toNat then false
    else charListLe as bs

/-- Python's `s <= t` on strings: code-point lexicographic order. -/
def pyStrLe (s t : String) : Bool := charListLe s.data t.data

/-- Python's `s.endswith(suffix)`. -/
def pyEndsWith (s suffix : String) : Bool := suffix.data.isSuffixOf s.data

/-- Python's `not s.strip()`: the string contains only whitespace. -/
def pyIsBlank (s : String) : Bool := s.data.all Char.isWhitespace

/-- Python's `s.strip()`: the string with leading and trailing
whitespace removed. -/
def pyStrip (s : String) : String :=
  String.mk (((s.data.dropWhile Char.isWhitespace).reverse.dropWhile
    Char.isWhitespace).reverse)

/-- Truthiness of a Python string: non-empty. -/
def pyTruthy (s : String) : Bool := !s.data.isEmpty

/-- The retry loop of `create_or_update_confluence_page`
(doc_generator.py lines 214-273), one list element per remaining loop
iteration.  State: `d` is the mutable `data` dictionary, `pv` the pair
`(page_id, current_version)` (`none` when `page_id` is `None`).
`rest.isEmpty` is exactly the Python guard `attempt < max_retries - 1`
being false.  A 409 re-fetches `(page_id, version)`; if the page is gone
the loop `continue`s straight into the create branch; otherwise, and for
every other error, it sleeps and retries unless attempts are exhausted.
Returns the Python return value and the trace of events. -/
def upsertLoop (d : Payload) (pv : Option (Nat × Nat)) :
    List UpsertOutcome → Option Nat × List UpsertEvent
  | [] => (none, [])
  | o :: rest =>
    match pv with
    | some (pid, ver) =>
      let d2 : Payload := { d with id := some pid, version := some (ver + 1) }
      let ev := UpsertEvent.request false d2 o
      match o with
      | .ok nid => (nid, [ev])
      | .httpError status ref =>
        if status == 409 then
          match ref with
          | none =>
            let r := upsertLoop d2 none rest
            (r.1, ev :: .refetch none :: r.2)
          | some pv2 =>
            if rest.isEmpty then (none, [ev, .refetch (some pv2)])
            else
              let r := upsertLoop d2 (some pv2) rest
              (r.1, ev :: .refetch (some pv2) :: r.2)
        else
          if rest.isEmpty then (none, [ev])
          else
            let r := upsertLoop d2 (some (pid, ver)) rest
            (r.1, ev :: r.2)
      | .requestError =>
        if rest.isEmpty then (none, [ev])
        else
          let r := upsertLoop d2 (some (pid, ver)) rest
          (r.1, ev :: r.2)
    | none =>
      let ev := UpsertEvent.request true d o
      match o with
      | .ok nid => (nid, [ev])
      | .httpError status ref =>
        if status == 409 then
          match ref with
          | none =>
            let r := upsertLoop d none rest
            (r.1, ev :: .refetch none :: r.2)
          | some pv2 =>
            if rest.isEmpty then (none, [ev, .refetch (some pv2)])
            else
              let r := upsertLoop d (some pv2) rest
              (r.1, ev :: .refetch (some pv2) :: r.2)
        else
          if rest.isEmpty then (none, [ev])
          else
            let r := upsertLoop d none rest
            (r.1, ev :: r.2)
      | .requestError =>
        if rest.isEmpty then (none, [ev])
        else
          let r := upsertLoop d none rest
          (r.1, ev :: r.2)

/-- `create_or_update_confluence_page` (doc_generator.py lines 181-273).
`lookup` is what the initial `get_confluence_page_id_and_version` call
(line 193) reports; `outcomes` are the successive HTTP outcomes of the
retry loop (length `maxRetries` in the real program).  The initial
payload has no `id`/`version` keys and carries `ancestors` only when a
parent id was given (lines 196-210). -/
def create_or_update_confluence_page (lookup : Option (Nat × Nat))
    (outcomes : List UpsertOutcome) (title space body : String)
    (parentId : Option Nat) : Option Nat × List UpsertEvent :=
  let d : Payload :=
    { ptype := "page", title := title, space := space, body := body,
      ancestors := parentId, id := none, version := none }
  upsertLoop d lookup outcomes

/-- Is this outcome an HTTP 409 conflict? -/
def is409 : UpsertOutcome → Bool
  | .httpError status _ => status == 409
  | _ => false

/-- Number of conflict re-fetch events in a trace. -/
def countRefetch : List UpsertEvent → Nat
  | [] => 0
  | .refetch _ :: rest => countRefetch rest + 1
  | .request _ _ _ :: rest => countRefetch rest

/-- Conflict-handling discipline of an upsert trace:
* a re-fetch never opens the trace and never follows another re-fetch,
  so each request is followed by at most one re-fetch;
* a request that received a 409 is immediately followed by exactly one
  re-fetch, and a request that received anything else by none;
* after a re-fetch reporting the page gone, the next request (if any)
  is a create, not an update. -/
def conflictDiscipline : List UpsertEvent → Bool
  | [] => true
  | .refetch _ :: _ => false
  | [.request _ _ o] => !is409 o
  | .request _ _ o :: .refetch r :: rest2 =>
    is409 o &&
      (match r, rest2 with
       | none, .request c _ _ :: _ => c
       | _, _ => true) &&
      conflictDiscipline rest2
  | .request _ _ o :: .request c2 d2 o2 :: rest2 =>
    !is409 o && conflictDiscipline (.request c2 d2 o2 :: rest2)

/-- The head of an upsert-loop trace is always a request, and it is a
create exactly when the entering `page_id` is `None`. -/
def headIsRequest (pvIsNone : Bool) : List UpsertEvent → Bool
  | [] => true
  | .request c _ _ :: _ => c == pvIsNone
  | .refetch _ :: _ => false

theorem upsertLoop_head (d : Payload) (pv : Option (Nat × Nat))
    (outcomes : List UpsertOutcome) :
    headIsRequest pv.isNone (upsertLoop d pv outcomes).2 = true := by
  cases outcomes with
  | nil => cases pv <;> rfl
  | cons o rest =>
    cases pv with
    | none =>
      cases o with
      | ok nid => rfl
      | httpError status ref =>
        simp only [upsertLoop]
        by_cases h : (status == 409) = true
        · simp only [h, if_true]
          cases ref <;> [skip; skip] <;>
            first
            | rfl
            | (by_cases hr : rest.isEmpty <;> simp [hr, headIsRequest])
        · simp only [h]
          by_cases hr : rest.isEmpty <;> simp [h, hr, headIsRequest]
      | requestError =>
        by_cases hr : rest.isEmpty <;> simp [upsertLoop, hr, headIsRequest]
    | some pv' =>
      obtain ⟨pid, ver⟩ := pv'
      cases o with
      | ok nid => rfl
      | httpError status ref =>
        simp only [upsertLoop]
        by_cases h : (status == 409) = true
        · simp only [h, if_true]
          cases ref <;> [skip; skip] <;>
            first
            | rfl
            | (by_cases hr : rest.isEmpty <;> simp [hr, headIsRequest])
        · simp only [h]
          by_cases hr : rest.isEmpty <;> simp [h, hr, headIsRequest]
      | requestError =>
        by_cases hr : rest.isEmpty <;> simp [upsertLoop, hr, headIsRequest]

theorem conflictDiscipline_refetch_cons (r : Option (Nat × Nat))
    (l : List UpsertEvent) : conflictDiscipline (.refetch r :: l) = false := rfl

/-- Appending a non-409 request in front of a disciplined trace whose head is
a request keeps the discipline. -/
theorem conflictDiscipline_request_cons (o : UpsertOutcome) (c b : Bool)
    (d : Payload) (tr : List UpsertEvent) (h1 : is409 o = false)
    (h2 : conflictDiscipline tr = true) (h3 : headIsRequest b tr = true) :
    conflictDiscipline (.request c d o :: tr) = true := by
  cases tr with
  | nil => simp [conflictDiscipline, h1]
  | cons e l =>
    cases e with
    | request c2 d2 o2 => simp [conflictDiscipline, h1, h2]
    | refetch r => rw [conflictDiscipline_refetch_cons] at h2; exact absurd h2 (by simp)

/-- Appending a 409 request plus its single re-fetch in front of a
disciplined trace keeps the discipline, provided that after a not-found
re-fetch the continuation opens with a create. -/
theorem conflictDiscipline_conflict_cons (o : UpsertOutcome) (c : Bool)
    (d : Payload) (r : Option (Nat × Nat)) (tr : List UpsertEvent)
    (h1 : is409 o = true) (h2 : conflictDiscipline tr = true)
    (h3 : r = none → headIsRequest true tr = true) :
    conflictDiscipline (.request c d o :: .refetch r :: tr) = true := by
  cases r with
  | some pv2 => simp [conflictDiscipline, h1, h2]
  | none =>
    have h3' := h3 rfl
    cases tr with
    | nil => simp [conflictDiscipline, h1]
    | cons e l =>
      cases e with
      | request c2 d2 o2 =>
        simp only [headIsRequest, beq_iff_eq] at h3'
        subst h3'
        simp [conflictDiscipline, h1, h2]
      | refetch r2 => rw [conflictDiscipline_refetch_cons] at h2; exact absurd h2 (by simp)

/-- One-step unfolding of the retry loop on a non-empty outcome list,
with the recursive occurrences left folded. -/
theorem upsertLoop_cons (d : Payload) (pv : Option (Nat × Nat))
    (o : UpsertOutcome) (rest : List UpsertOutcome) :
    upsertLoop d pv (o :: rest) =
      let d2 : Payload :=
        match pv with
        | some (pid, ver) => { d with id := some pid, version := some (ver + 1) }
        | none => d
      let ev := UpsertEvent.request pv.isNone d2 o
      match o with
      | .ok nid => (nid, [ev])
      | .httpError status ref =>
        if status == 409 then
          match ref with
          | none =>
            let r := upsertLoop d2 none rest
            (r.1, ev :: .refetch none :: r.2)
          | some pv2 =>
            if rest.isEmpty then (none, [ev, .refetch (some pv2)])
            else
              let r := upsertLoop d2 (some pv2) rest
              (r.1, ev :: .refetch (some pv2) :: r.2)
        else
          if rest.isEmpty then (none, [ev])
          else
            let r := upsertLoop d2 pv rest
            (r.1, ev :: r.2)
      | .requestError =>
        if rest.isEmpty then (none, [ev])
        else
          let r := upsertLoop d2 pv rest
          (r.1, ev :: r.2) := by
  cases pv with
  | none => cases o <;> rfl
  | some pv1 => obtain ⟨pid, ver⟩ := pv1; cases o <;> rfl

/-- Every trace of the upsert retry loop obeys the conflict discipline. -/
theorem upsertLoop_discipline (outcomes : List UpsertOutcome) (d : Payload)
    (pv : Option (Nat × Nat)) :
    conflictDiscipline (upsertLoop d pv outcomes).2 = true := by
  induction outcomes generalizing d pv with
  | nil => cases pv <;> rfl
  | cons o rest ih =>
    rw [upsertLoop_cons]
    cases o with
    | ok nid => simp [conflictDiscipline, is409]
    | httpError status ref =>
      by_cases h409 : (status == 409) = true
      · cases ref with
        | none =>
          simp only [h409, if_true]
          exact conflictDiscipline_conflict_cons _ _ _ _ _ (by simp [is409, h409])
            (ih _ _) (fun _ => upsertLoop_head _ none rest)
        | some pv2 =>
          cases rest with
          | nil =>
            simp only [h409, if_true, List.isEmpty_nil]
            simp [conflictDiscipline, is409, h409]
          | cons o2 rest2 =>
            simp only [h409, if_true, List.isEmpty_cons, Bool.false_eq_true, if_false]
            exact conflictDiscipline_conflict_cons _ _ _ _ _ (by simp [is409, h409])
              (ih _ _) (fun h => by cases h)
      · simp only [h409, Bool.false_eq_true, if_false]
        cases rest with
        | nil =>
          simp only [List.isEmpty_nil, if_true]
          simp [h409, conflictDiscipline, is409]
        | cons o2 rest2 =>
          simp only [List.isEmpty_cons, Bool.false_eq_true, if_false]
          exact conflictDiscipline_request_cons _ _ pv.isNone _ _
            (by simp [is409, h409]) (ih _ _) (upsertLoop_head _ _ _)
    | requestError =>
      cases rest with
      | nil => simp [conflictDiscipline, is409]
      | cons o2 rest2 =>
        simp only [List.isEmpty_cons, Bool.false_eq_true, if_false]
        exact conflictDiscipline_request_cons _ _ pv.isNone _ _
          (by simp [is409]) (ih _ _) (upsertLoop_head _ _ _)

/-- The retry loop performs at most one conflict re-fetch per loop
iteration, hence at most `maxRetries` per call. -/
theorem upsertLoop_countRefetch (outcomes : List UpsertOutcome) (d : Payload)
    (pv : Option (Nat × Nat)) :
    countRefetch (upsertLoop d pv outcomes).2 ≤ outcomes.length := by
  induction outcomes generalizing d pv with
  | nil => cases pv <;> simp [upsertLoop, countRefetch]
  | cons o rest ih =>
    rw [upsertLoop_cons]
    cases o with
    | ok nid => simp [countRefetch]
    | httpError status ref =>
      by_cases h409 : (status == 409) = true
      · cases ref with
        | none =>
          simp only [h409, if_true, countRefetch, List.length_cons]
          have := ih (match pv with
            | some (pid, ver) => { d with id := some pid, version := some (ver + 1) }
            | none => d) none
          omega
        | some pv2 =>
          cases rest with
          | nil => simp [h409, countRefetch]
          | cons o2 rest2 =>
            simp only [h409, if_true, List.isEmpty_cons, Bool.false_eq_true, if_false,
              countRefetch, List.length_cons]
            have := ih (match pv with
              | some (pid, ver) => { d with id := some pid, version := some (ver + 1) }
              | none => d) (some pv2)
            simp only [List.length_cons] at this
            omega
      · simp only [h409, Bool.false_eq_true, if_false]
        cases rest with
        | nil => simp [countRefetch]
        | cons o2 rest2 =>
          simp only [List.isEmpty_cons, Bool.false_eq_true, if_false,
            countRefetch, List.length_cons]
          have := ih (match pv with
            | some (pid, ver) => { d with id := some pid, version := some (ver + 1) }
            | none => d) pv
          simp only [List.length_cons] at this
          omega
    | requestError =>
      cases rest with
      | nil => simp [countRefetch]
      | cons o2 rest2 =>
        simp only [List.isEmpty_cons, Bool.false_eq_true, if_false,
          countRefetch, List.length_cons]
        have := ih (match pv with
          | some (pid, ver) => { d with id := some pid, version := some (ver + 1) }
          | none => d) pv
        simp only [List.length_cons] at this
        omega

/-- On a non-empty outcome list, the first trace event is the first HTTP
request: an update carrying `version + 1` when `page_id` was found, a
create with the untouched payload otherwise. -/
theorem upsertLoop_head_event (d : Payload) (pv : Option (Nat × Nat))
    (o : UpsertOutcome) (rest : List UpsertOutcome) :
    ((upsertLoop d pv (o :: rest)).2).head? =
      some (UpsertEvent.request pv.isNone
        (match pv with
         | some (pid, ver) => { d with id := some pid, version := some (ver + 1) }
         | none => d) o) := by
  rw [upsertLoop_cons]
  cases pv with
  | none =>
    cases o with
    | ok nid => rfl
    | httpError status ref =>
      cases ref with
      | none => simp only []; split <;> (try split) <;> rfl
      | some pv2 => simp only []; split <;> (try split) <;> rfl
    | requestError => simp only []; split <;> rfl
  | some pv1 =>
    obtain ⟨pid, ver⟩ := pv1
    cases o with
    | ok nid => rfl
    | httpError status ref =>
      cases ref with
      | none => simp only []; split <;> (try split) <;> rfl
      | some pv2 => simp only []; split <;> (try split) <;> rfl
    | requestError => simp only []; split <;> rfl

/-- C1, amended part.  For every lookup result and every environment of
HTTP outcomes, the upsert trace obeys the conflict discipline — every 409
is followed by exactly one re-fetch before the next request, a re-fetch
reporting the page gone is followed (if by anything) by a create, and the
conflict-retry re-fetch happens at most once per attempt, i.e. at most
`outcomes.length` (= `maxRetries` = 3) times per call — but not at most
once per call. -/
theorem upsert_conflict_retry_discipline (lookup : Option (Nat × Nat))
    (outcomes : List UpsertOutcome) (title space body : String)
    (parentId : Option Nat) :
    conflictDiscipline
        (create_or_update_confluence_page lookup outcomes title space body parentId).2
      = true ∧
    countRefetch
        (create_or_update_confluence_page lookup outcomes title space body parentId).2
      ≤ outcomes.length :=
  ⟨upsertLoop_discipline _ _ _, upsertLoop_countRefetch _ _ _⟩

/-- C1, counterexample to the claim as stated: when the lookup finds the
page and the first two update attempts both receive 409 (each re-fetch
finding the page again), a single call performs the conflict re-fetch
twice, refuting "the conflict-retry state is entered at most once per
call". -/
theorem upsert_conflict_retry_entered_twice :
    countRefetch (create_or_update_confluence_page (some (5, 1))
      [.httpError 409 (some (5, 2)), .httpError 409 (some (5, 3)), .ok (some 9)]
      "T" "SP" "B" none).2 = 2 := by rfl

/-- C2.  (a) When the preceding lookup found `(p, v)`, the first request
issued is an update whose version payload is `v + 1`; (b) when it found
nothing, the first request is a create.  (c) Hence two upserts of the same
title and space — the first finding no page and succeeding with id `nid`,
the second finding the created page at version `v1` — issue exactly one
create followed by exactly one update carrying version `v1 + 1`. -/
theorem upsert_twice_one_create_one_update
    (title space b1 b2 : String) (parent : Option Nat)
    (p v nid v1 : Nat) (nid2 : Option Nat)
    (o : UpsertOutcome) (rest rest1 rest2 : List UpsertOutcome) :
    (((create_or_update_confluence_page (some (p, v)) (o :: rest)
        title space b1 parent).2).head? =
      some (.request false
        { ptype := "page", title := title, space := space, body := b1,
          ancestors := parent, id := some p, version := some (v + 1) } o)) ∧
    (((create_or_update_confluence_page none (o :: rest)
        title space b1 parent).2).head? =
      some (.request true
        { ptype := "page", title := title, space := space, body := b1,
          ancestors := parent, id := none, version := none } o)) ∧
    (create_or_update_confluence_page none (.ok (some nid) :: rest1)
        title space b1 parent =
      (some nid,
       [.request true
         { ptype := "page", title := title, space := space, body := b1,
           ancestors := parent, id := none, version := none } (.ok (some nid))])) ∧
    (create_or_update_confluence_page (some (nid, v1)) (.ok nid2 :: rest2)
        title space b2 parent =
      (nid2,
       [.request false
         { ptype := "page", title := title, space := space, body := b2,
           ancestors := parent, id := some nid, version := some (v1 + 1) } (.ok nid2)])) := by
  refine ⟨?_, ?_, rfl, rfl⟩
  · exact upsertLoop_head_event _ (some (p, v)) o rest
  · exact upsertLoop_head_event _ none o rest

/-- C10.  When an update attempt receives a 409 and the conflict re-fetch
reports the page gone, the next request is a create that reuses the very
payload dictionary mutated by the failed update: the stale `id` and
`version` (old id, old version + 1) are still present, and title, space,
body and ancestors are unchanged. -/
theorem conflict_gone_create_reuses_stale_payload
    (title space body : String) (parent : Option Nat) (pid v : Nat)
    (o : UpsertOutcome) (rest : List UpsertOutcome) :
    (((create_or_update_confluence_page (some (pid, v))
        (.httpError 409 none :: o :: rest) title space body parent).2).take 2 =
      [.request false
        { ptype := "page", title := title, space := space, body := body,
          ancestors := parent, id := some pid, version := some (v + 1) }
        (.httpError 409 none),
       .refetch none]) ∧
    ((((create_or_update_confluence_page (some (pid, v))
        (.httpError 409 none :: o :: rest) title space body parent).2).drop 2).head? =
      some (.request true
        { ptype := "page", title := title, space := space, body := body,
          ancestors := parent, id := some pid, version := some (v + 1) } o)) := by
  constructor
  · rfl
  · exact upsertLoop_head_event _ none o rest

/-- Outcome of one `client.chat.completions.create` call inside
`get_ai_documentation` (doc_generator.py lines 125-142), classified by
the exception class the openai v1 client raises:
* `success t` — well-formed response, `response.choices[0].message.content`
  is `t`;
* `rateLimitError m` — the call raised `openai.RateLimitError` (HTTP 429);
* `otherException m` — the call raised any other exception.  An HTTP 503
  ("model warming up") raises `openai.InternalServerError`, which is not a
  subclass of `openai.RateLimitError`, so a 503 lands here; so does a
  malformed response body (`response.choices[0]` raising `IndexError`),
  since that access sits inside the same `try`. -/
inductive AIOutcome where
  | success (text : String)
  | rateLimitError (msg : String)
  | otherException (msg : String)
deriving Repr, DecidableEq

/-- Is this outcome an `openai.RateLimitError`? -/
def isRateLimit : AIOutcome → Bool
  | .rateLimitError _ => true
  | _ => false

/-- Is this outcome a well-formed successful response? -/
def isSuccess : AIOutcome → Bool
  | .success _ => true
  | _ => false

/-- Text returned when the OpenAI client was never initialized
(doc_generator.py line 84). -/
def aiNoClientText (filePath : String) : String :=
  "Error: OpenAI client not initialized. Could not generate documentation for "
    ++ filePath ++ "."

/-- Error marker returned on any non-rate-limit exception
(doc_generator.py line 142). -/
def aiErrorText (filePath msg : String) : String :=
  "h2. Error Generating Documentation\n\nAn error occurred while generating AI documentation for "
    ++ filePath ++ ":\n\x7b\x7bnoformat\x7d\x7d\n" ++ msg ++ "\n\x7b\x7bnoformat\x7d\x7d"

/-- Error marker returned after exhausting all retries
(doc_generator.py line 146). -/
def aiRetriesExhaustedText (filePath : String) : String :=
  "h2. Error Generating Documentation\n\nFailed to retrieve documentation from OpenAI for "
    ++ filePath ++ " after multiple retries due to rate limiting or other API issues."

/-- The retry loop of `get_ai_documentation` (lines 123-146): one list
element per remaining attempt, `retryDelay` the current backoff delay in
seconds (initially 5).  Returns the text returned to the caller, the
number of API calls made, and the list of `time.sleep` delays performed.
Only `openai.RateLimitError` is retried (sleep, then double the delay);
any other exception returns the error marker at once; a well-formed
response returns its stripped text. -/
def aiLoop (filePath : String) (retryDelay : Nat) :
    List AIOutcome → String × Nat × List Nat
  | [] => (aiRetriesExhaustedText filePath, 0, [])
  | o :: rest =>
    match o with
    | .success t => (pyStrip t, 1, [])
    | .otherException m => (aiErrorText filePath m, 1, [])
    | .rateLimitError _ =>
      let r := aiLoop filePath (retryDelay * 2) rest
      (r.1, r.2.1 + 1, retryDelay :: r.2.2)

/-- `get_ai_documentation` (doc_generator.py lines 79-146).  `clientOk`
says whether the module-level OpenAI client was initialized; `outcomes`
holds the successive API call outcomes (length `maxRetries` = 3 in the
real program). -/
def get_ai_documentation (clientOk : Bool) (outcomes : List AIOutcome)
    (_fileContent filePath : String) : String × Nat × List Nat :=
  if clientOk then aiLoop filePath 5 outcomes
  else (aiNoClientText filePath, 0, [])

/-- Number of rate-limit outcomes before the first non-rate-limit one. -/
def leadingRateLimits : List AIOutcome → Nat
  | .rateLimitError _ :: rest => leadingRateLimits rest + 1
  | _ => 0

/-- The sleeps performed by the retry loop are exactly one per leading
rate-limit outcome, with the delay doubling each time. -/
theorem aiLoop_sleeps (outcomes : List AIOutcome) (filePath : String) (d : Nat) :
    (aiLoop filePath d outcomes).2.2 =
      (List.range (leadingRateLimits outcomes)).map (fun i => d * 2 ^ i) := by
  induction outcomes generalizing d with
  | nil => simp [aiLoop, leadingRateLimits]
  | cons o rest ih =>
    cases o with
    | success t => simp [aiLoop, leadingRateLimits]
    | otherException m => simp [aiLoop, leadingRateLimits]
    | rateLimitError m =>
      simp only [aiLoop, leadingRateLimits]
      rw [ih (d * 2), List.range_succ_eq_map]
      simp [List.map_map, Function.comp_def, pow_succ, Nat.mul_comm,
        Nat.mul_assoc, Nat.mul_left_comm]

/-- The retry loop makes at most one API call per remaining attempt. -/
theorem aiLoop_attempts_le (outcomes : List AIOutcome) (filePath : String)
    (d : Nat) : (aiLoop filePath d outcomes).2.1 ≤ outcomes.length := by
  induction outcomes generalizing d with
  | nil => simp [aiLoop]
  | cons o rest ih =>
    cases o with
    | success t => simp [aiLoop]
    | otherException m => simp [aiLoop]
    | rateLimitError m =>
      simp only [aiLoop, List.length_cons]
      exact Nat.add_le_add_right (ih (d * 2)) 1

/-- When every attempt is rate limited, the retry loop runs to exhaustion
and returns the retries-exhausted marker. -/
theorem aiLoop_all_rate_limit (outs : List AIOutcome) (filePath : String)
    (d : Nat) (h : ∀ o ∈ outs, isRateLimit o = true) :
    (aiLoop filePath d outs).1 = aiRetriesExhaustedText filePath := by
  induction outs generalizing d with
  | nil => rfl
  | cons o rest ih =>
    cases o with
    | success t => exact absurd (h _ (List.mem_cons_self _ _)) (by simp [isRateLimit])
    | otherException m => exact absurd (h _ (List.mem_cons_self _ _)) (by simp [isRateLimit])
    | rateLimitError m =>
      simp only [aiLoop]
      exact ih (d * 2) (fun o ho => h o (List.mem_cons_of_mem _ ho))

/-- C3 amended: `get_ai_documentation` applies bounded retry with
exponential backoff (5s, 10s, 20s, …) on rate-limit (HTTP 429) responses
only, up to the fixed ceiling of 3 attempts; any other failure —
including an HTTP 503 "model warming up" response, which the openai v1
client surfaces as `InternalServerError`, not `RateLimitError` — returns
the error marker immediately, after a single attempt and with no backoff
sleep. -/
theorem ai_backoff_retries_rate_limit_only (outcomes : List AIOutcome)
    (_fileContent filePath m : String) (rest : List AIOutcome) :
    ((get_ai_documentation true outcomes _fileContent filePath).2.1
        ≤ outcomes.length) ∧
    ((get_ai_documentation true outcomes _fileContent filePath).2.2 =
        (List.range (leadingRateLimits outcomes)).map (fun i => 5 * 2 ^ i)) ∧
    ((∀ o ∈ outcomes, isRateLimit o = true) →
        (get_ai_documentation true outcomes _fileContent filePath).1 =
          aiRetriesExhaustedText filePath) ∧
    (get_ai_documentation true (.otherException m :: rest) _fileContent filePath =
        (aiErrorText filePath m, 1, [])) := by
  refine ⟨aiLoop_attempts_le _ _ _, aiLoop_sleeps _ _ _, ?_, rfl⟩
  intro h
  simp only [get_ai_documentation, if_true]
  exact aiLoop_all_rate_limit outcomes filePath 5 h

theorem ai_backoff_retries_rate_limit_only_witness :
    (get_ai_documentation true
        [.rateLimitError "a", .rateLimitError "b", .rateLimitError "c"]
        "x = 1" "main.py").1 = aiRetriesExhaustedText "main.py" :=
  (ai_backoff_retries_rate_limit_only
      [.rateLimitError "a", .rateLimitError "b", .rateLimitError "c"]
      "x = 1" "main.py" "m" []).2.2.1 (by decide)

/-- C3 counterexample: an HTTP 503 "model warming up" failure is not
retried — the call returns the generic error marker after exactly one
attempt, with no backoff sleep, refuting the claimed retry on 503. -/
theorem ai_503_not_retried :
    get_ai_documentation true
        [.otherException "Error code: 503 - model warming up",
         .success "doc", .success "doc"] "print(1)" "app/main.py" =
      (aiErrorText "app/main.py" "Error code: 503 - model warming up", 1, []) := by
  rfl

/-- When no attempt yields a well-formed successful response, the retry
loop returns one of the two fixed error markers. -/
theorem aiLoop_no_success_marker (outs : List AIOutcome) (filePath : String)
    (d : Nat) (h : ∀ o ∈ outs, isSuccess o = false) :
    (aiLoop filePath d outs).1 = aiRetriesExhaustedText filePath ∨
      ∃ m, (aiLoop filePath d outs).1 = aiErrorText filePath m := by
  induction outs generalizing d with
  | nil => exact Or.inl rfl
  | cons o rest ih =>
    cases o with
    | success t => exact absurd (h _ (List.mem_cons_self _ _)) (by simp [isSuccess])
    | otherException m => exact Or.inr ⟨m, rfl⟩
    | rateLimitError m =>
      exact ih (d * 2) (fun o ho => h o (List.mem_cons_of_mem _ ho))

/-- C4: on any run in which no attempt yields a well-formed successful
response — any non-retryable failure, or rate limiting through the whole
attempt ceiling — `get_ai_documentation` returns one of the three fixed
error-marker texts instead of raising (its two except clauses jointly
catch every exception class, and the marker is what the function
returns). -/
theorem ai_never_raises_returns_marker (clientOk : Bool)
    (outcomes : List AIOutcome) (_fileContent filePath : String)
    (h : ∀ o ∈ outcomes, isSuccess o = false) :
    (get_ai_documentation clientOk outcomes _fileContent filePath).1 =
        aiNoClientText filePath ∨
    (get_ai_documentation clientOk outcomes _fileContent filePath).1 =
        aiRetriesExhaustedText filePath ∨
    ∃ m, (get_ai_documentation clientOk outcomes _fileContent filePath).1 =
        aiErrorText filePath m := by
  cases clientOk with
  | false => exact Or.inl rfl
  | true =>
    simp only [get_ai_documentation, if_true]
    exact Or.inr (aiLoop_no_success_marker outcomes filePath 5 h)

theorem ai_never_raises_returns_marker_witness :
    (get_ai_documentation true
        [.otherException "boom", .rateLimitError "r", .rateLimitError "r"]
        "x = 1" "main.py").1 = aiNoClientText "main.py" ∨
    (get_ai_documentation true
        [.otherException "boom", .rateLimitError "r", .rateLimitError "r"]
        "x = 1" "main.py").1 = aiRetriesExhaustedText "main.py" ∨
    ∃ m, (get_ai_documentation true
        [.otherException "boom", .rateLimitError "r", .rateLimitError "r"]
        "x = 1" "main.py").1 = aiErrorText "main.py" m :=
  ai_never_raises_returns_marker true
    [.otherException "boom", .rateLimitError "r", .rateLimitError "r"]
    "x = 1" "main.py" (by decide)

/-- A Python exception escaping a modelled function. -/
inductive PyExn where
  | unboundLocalError
  | keyError (key : String)
deriving Repr, DecidableEq

/-- One entry of the `results` array in the Confluence search response;
`id` or the nested `version.number` key may be missing, in which case the
subscript access raises `KeyError`. -/
structure ConfluenceResult where
  id : Option Nat
  versionNumber : Option Nat
deriving Repr, DecidableEq

/-- What the HTTP layer produced inside
`get_confluence_page_id_and_version`:
* `noResponse` — `requests.get` itself raised (connection error,
  timeout), so the local variable `response` was never bound;
* `response status body` — a response arrived with this status code;
  `body` is `none` when the body is not valid JSON (with requests ≥ 2.27
  `response.json()` then raises `requests.exceptions.JSONDecodeError`, a
  `RequestException` subclass, hence caught), otherwise the decoded
  `results` list (a missing `results` key decodes to `[]` via `.get`). -/
inductive LookupHttp where
  | noResponse
  | response (status : Nat) (body : Option (List ConfluenceResult))
deriving Repr, DecidableEq

/-- `get_confluence_page_id_and_version` (doc_generator.py lines
149-178).  `credsOk` is the guard on the three Confluence credential
variables (line 151).  Returns `Except.error` exactly when a Python
exception escapes the function.  The `except` clause catches only
`requests.exceptions.RequestException`; inside the handler,
`hasattr(response, 'text')` evaluates the local `response`, which raises
`UnboundLocalError` when `requests.get` raised before binding it.  The
key accesses `results[0]["id"]` and `results[0]['version']['number']`
(lines 167-168) are inside the `try`, but a `KeyError` they raise is not
a `RequestException`, so it propagates out of the function. -/
def get_confluence_page_id_and_version (credsOk : Bool) (http : LookupHttp) :
    Except PyExn (Option Nat × Option Nat) :=
  if !credsOk then .ok (none, none)
  else
    match http with
    | .noResponse => .error .unboundLocalError
    | .response status body =>
      if 400 ≤ status then .ok (none, none)
      else
        match body with
        | none => .ok (none, none)
        | some [] => .ok (none, none)
        | some (r :: _) =>
          match r.id with
          | none => .error (.keyError "id")
          | some pid =>
            match r.versionNumber with
            | none => .error (.keyError "version")
            | some ver => .ok (some pid, some ver)

/-- C5, evaluating the code at the failing inputs: a connection error or
timeout (no response ever bound) makes the function raise
`UnboundLocalError` from its own `except` handler instead of returning
`(None, None)`, and a well-formed JSON body whose first result lacks the
`version` key raises `KeyError`; only failures that arrive as a bound
response with a `RequestException` (such as a non-2xx status) are
converted to the not-found signal as the claim describes. -/
theorem lookup_error_paths :
    get_confluence_page_id_and_version true .noResponse =
        .error .unboundLocalError ∧
    get_confluence_page_id_and_version true
        (.response 200 (some [{ id := some 7, versionNumber := none }])) =
        .error (.keyError "version") ∧
    get_confluence_page_id_and_version true (.response 404 (some [])) =
        .ok (none, none) ∧
    get_confluence_page_id_and_version true (.response 500 none) =
        .ok (none, none) :=
  ⟨rfl, rfl, rfl, rfl⟩

/-- A filesystem entry under the documented root: a file with its content,
or a directory with its children. -/
inductive FSEntry where
  | file (name : String) (content : String)
  | dir (name : String) (children : List FSEntry)

/-- The name of a filesystem entry. -/
def FSEntry.name : FSEntry → String
  | .file n _ => n
  | .dir n _ => n

/-- Insert an entry into a name-sorted list, keeping it sorted. -/
def insertByName (e : FSEntry) : List FSEntry → List FSEntry
  | [] => [e]
  | x :: xs => if pyStrLe e.name x.name then e :: x :: xs else x :: insertByName e xs

/-- Sort entries lexicographically by name, as Python's
`sorted(os.listdir(...))` does (doc_generator.py line 286). -/
def sortByName (l : List FSEntry) : List FSEntry := l.foldr insertByName []

mutual

/-- Recursively sort the children of every directory by name.  Traversing
the resulting tree in list order is exactly the original code's
`sorted(os.listdir(...))` at every directory level. -/
def sortTree : FSEntry → FSEntry
  | .file n c => .file n c
  | .dir n children => .dir n (sortByName (sortTreeList children))
termination_by structural e => e

/-- Recursively sort every entry of a list of filesystem entries. -/
def sortTreeList : List FSEntry → List FSEntry
  | [] => []
  | e :: rest => sortTree e :: sortTreeList rest
termination_by structural l => l

end

/-- Title of a directory page: the project title, then the relative path
with the path separator rendered as " / " (doc_generator.py line 297). -/
def dirPageTitle (rootTitle : String) (relPath : List String) : String :=
  rootTitle ++ ": " ++ String.intercalate " / " relPath

/-- Title of a file page: the project title, then the relative path
(doc_generator.py line 320). -/
def filePageTitle (rootTitle : String) (relPath : List String) : String :=
  rootTitle ++ ": " ++ String.intercalate "/" relPath

/-- Body published for a directory page (doc_generator.py line 301). -/
def dirPageBody (name : String) : String :=
  "h1. Directory: " ++ name ++
    "\n\nThis page contains documentation for modules and subdirectories within \x27"
    ++ name ++ "\x27."

/-- One Confluence publish request issued by the traversal: the path of
the entry relative to the code root, whether it is a directory page, the
page title and body, the parent page id passed, and the id the store
returned (`none` = the upsert failed). -/
structure Pub where
  path : List String
  isDir : Bool
  title : String
  body : String
  parent : Nat
  result : Option Nat
deriving Repr, DecidableEq

mutual

/-- Processing of one already-sorted directory entry by
`process_directory_recursively` (doc_generator.py lines 288-351).
`store` maps a page title to what the `create_or_update_confluence_page`
call for it does: `.ok (some id)` — it returned a page id; `.ok none`
— it returned `None` after exhausting its retries; `.error e` — it
raised, which happens when its initial
`get_confluence_page_id_and_version` lookup (line 193, outside the retry
loop's `try`) raises as established for C5.  The directory branch
(lines 294-315) has no `try`, so a raising upsert propagates and aborts
the traversal; when the upsert returns an id the traversal recurses with
it as parent, and when it returns `None` the whole subtree is skipped.
The file branch (lines 317-349) sits inside `try ... except Exception`,
so a raising upsert is caught and only that file is skipped; a file is
published only when its name ends in ".py", its content is non-blank,
and the summarizer text is non-empty (`if ai_doc_content:`).  `aiEnv`
gives the OpenAI outcomes for a given relative path. -/
def processEntry (store : String → Except PyExn (Option Nat))
    (clientOk : Bool) (aiEnv : String → List AIOutcome) (rootTitle : String) :
    Nat → List String → FSEntry → Except PyExn (List Pub)
  | parentId, rel, .file name content =>
    if pyEndsWith name ".py" then
      if pyIsBlank content then .ok []
      else
        let p := String.intercalate "/" (rel ++ [name])
        let body := (get_ai_documentation clientOk (aiEnv p) content p).1
        if !pyTruthy body then .ok []
        else
          match store (filePageTitle rootTitle (rel ++ [name])) with
          | .error _ => .ok []
          | .ok res =>
            .ok [{ path := rel ++ [name], isDir := false,
                   title := filePageTitle rootTitle (rel ++ [name]), body := body,
                   parent := parentId, result := res }]
    else .ok []
  | parentId, rel, .dir name children =>
    match store (dirPageTitle rootTitle (rel ++ [name])) with
    | .error e => .error e
    | .ok (some newParent) =>
      match processEntries store clientOk aiEnv rootTitle newParent
          (rel ++ [name]) children with
      | .error e => .error e
      | .ok out =>
        .ok ({ path := rel ++ [name], isDir := true,
               title := dirPageTitle rootTitle (rel ++ [name]),
               body := dirPageBody name, parent := parentId,
               result := some newParent } :: out)
    | .ok none =>
      .ok [{ path := rel ++ [name], isDir := true,
             title := dirPageTitle rootTitle (rel ++ [name]),
             body := dirPageBody name, parent := parentId, result := none }]
termination_by structural parentId rel e => e

/-- Processing of a list of already-sorted entries in order, each entry
handled completely before its next sibling; an exception escaping one
entry aborts the processing of the whole list, truncating the output. -/
def processEntries (store : String → Except PyExn (Option Nat))
    (clientOk : Bool) (aiEnv : String → List AIOutcome) (rootTitle : String) :
    Nat → List String → List FSEntry → Except PyExn (List Pub)
  | _, _, [] => .ok []
  | parentId, rel, e :: rest =>
    match processEntry store clientOk aiEnv rootTitle parentId rel e with
    | .error ex => .error ex
    | .ok pubs =>
      match processEntries store clientOk aiEnv rootTitle parentId rel rest with
      | .error ex => .error ex
      | .ok out => .ok (pubs ++ out)
termination_by structural parentId rel l => l

end

/-- `process_directory_recursively` (doc_generator.py lines 276-351)
applied to the children of the configured root directory: every
directory's listing is visited in sorted order, which is the in-order
traversal of the recursively sorted tree.  `.error e` means the Python
exception `e` escaped the walk. -/
def process_directory_recursively (store : String → Except PyExn (Option Nat))
    (clientOk : Bool) (aiEnv : String → List AIOutcome) (rootTitle : String)
    (parentId : Nat) (children : List FSEntry) : Except PyExn (List Pub) :=
  processEntries store clientOk aiEnv rootTitle parentId []
    (sortByName (sortTreeList children))

/-- Did the upsert for this title succeed with a page id (neither
returned `None` nor raised)? -/
def upsertSucceeded (store : String → Except PyExn (Option Nat))
    (t : String) : Bool :=
  match store t with
  | .ok (some _) => true
  | _ => false

mutual

/-- Spec-side definition, following the spec's words: the expected page
entries are "the directories plus the matching (.py, non-empty) files
under the root", excluding strict "subtrees rooted at a directory whose
own page creation failed", visited in lexicographic order.  Each element
is the entry's relative path paired with whether it is a directory. -/
def specEntry (store : String → Except PyExn (Option Nat))
    (rootTitle : String) : List String → FSEntry → List (List String × Bool)
  | rel, .file name content =>
    if pyEndsWith name ".py" && !pyIsBlank content then [(rel ++ [name], false)]
    else []
  | rel, .dir name children =>
    if upsertSucceeded store (dirPageTitle rootTitle (rel ++ [name])) then
      (rel ++ [name], true) ::
        specEntryList store rootTitle (rel ++ [name]) children
    else [(rel ++ [name], true)]
termination_by structural rel e => e

/-- Spec-side expected entries of a list of (already-sorted) siblings. -/
def specEntryList (store : String → Except PyExn (Option Nat))
    (rootTitle : String) : List String → List FSEntry → List (List String × Bool)
  | _, [] => []
  | rel, e :: rest =>
    specEntry store rootTitle rel e ++ specEntryList store rootTitle rel rest
termination_by structural rel l => l

end

/-- The page title the code assigns to an expected entry: directory pages
render the path with " / ", file pages with "/". -/
def renderEntryTitle (rootTitle : String) : List String × Bool → String
  | (rel, true) => dirPageTitle rootTitle rel
  | (rel, false) => filePageTitle rootTitle rel

/-- The backbone of the traversal correctness argument, by strong
induction on the size of the entry list: when no page-store call raises
(so the C5 exception path never fires) and `get_ai_documentation` never
returns an empty text, the walk returns normally and (1) the published
pages correspond one-to-one, in order, to the spec-side expected
entries; (2) every published page carries the title the code assigns to
its path, and (3) its parent-of-record is the id passed for the
enclosing directory — the given `parentId` for top-level entries, and
the id the store returned for the enclosing directory's page
otherwise. -/
theorem processEntries_spec (store : String → Except PyExn (Option Nat))
    (clientOk : Bool) (aiEnv : String → List AIOutcome) (rootTitle : String)
    (hne : ∀ p c, ((get_ai_documentation clientOk (aiEnv p) c p).1).data.isEmpty = false)
    (hsafe : ∀ t e, store t ≠ .error e) :
    ∀ (n : Nat) (l : List FSEntry), sizeOf l ≤ n → ∀ (parentId : Nat) (rel : List String),
      ∃ out, processEntries store clientOk aiEnv rootTitle parentId rel l = .ok out ∧
        (out.map (fun r => (r.path, r.isDir)) = specEntryList store rootTitle rel l) ∧
        (∀ r ∈ out,
          r.title = renderEntryTitle rootTitle (r.path, r.isDir) ∧
          ((r.path.dropLast = rel ∧ r.parent = parentId) ∨
            store (dirPageTitle rootTitle r.path.dropLast) = .ok (some r.parent))) := by
  intro n
  induction n with
  | zero =>
    intro l hl
    exfalso
    cases l with
    | nil => simp at hl
    | cons e es => simp only [List.cons.sizeOf_spec] at hl; omega
  | succ n ih =>
    intro l hl parentId rel
    match l with
    | [] => exact ⟨[], rfl, rfl, by simp⟩
    | .file name content :: rest =>
      obtain ⟨outR, hR, hR1, hR2⟩ :=
        ih rest (by simp only [List.cons.sizeOf_spec] at hl; omega) parentId rel
      by_cases hpy : pyEndsWith name ".py" = true
      · by_cases hbl : pyIsBlank content = true
        · refine ⟨outR, ?_, ?_, hR2⟩
          · simp [processEntries, processEntry, hpy, hbl, hR]
          · simp [specEntryList, specEntry, hpy, hbl, hR1]
        · have hbody := hne (String.intercalate "/" (rel ++ [name])) content
          cases hst : store (filePageTitle rootTitle (rel ++ [name])) with
          | error e => exact absurd hst (hsafe _ _)
          | ok res =>
            refine ⟨{ path := rel ++ [name], isDir := false,
                        title := filePageTitle rootTitle (rel ++ [name]),
                        body := (get_ai_documentation clientOk
                          (aiEnv (String.intercalate "/" (rel ++ [name]))) content
                          (String.intercalate "/" (rel ++ [name]))).1,
                        parent := parentId, result := res } :: outR, ?_, ?_, ?_⟩
            · simp [processEntries, processEntry, hpy, hbl, pyTruthy, hbody, hst, hR]
            · simp [specEntryList, specEntry, hpy, hbl, hR1]
            · intro r hr
              rcases List.mem_cons.mp hr with rfl | hr
              · exact ⟨rfl, Or.inl ⟨by simp, rfl⟩⟩
              · exact hR2 r hr
      · refine ⟨outR, ?_, ?_, hR2⟩
        · simp [processEntries, processEntry, hpy, hR]
        · simp [specEntryList, specEntry, hpy, hR1]
    | .dir name children :: rest =>
      obtain ⟨outR, hR, hR1, hR2⟩ := ih rest
        (by simp only [List.cons.sizeOf_spec, FSEntry.dir.sizeOf_spec] at hl ⊢; omega)
        parentId rel
      cases hst : store (dirPageTitle rootTitle (rel ++ [name])) with
      | error e => exact absurd hst (hsafe _ _)
      | ok pres =>
        cases pres with
        | none =>
          refine ⟨{ path := rel ++ [name], isDir := true,
                      title := dirPageTitle rootTitle (rel ++ [name]),
                      body := dirPageBody name, parent := parentId,
                      result := none } :: outR, ?_, ?_, ?_⟩
          · simp [processEntries, processEntry, hst, hR]
          · simp [specEntryList, specEntry, upsertSucceeded, hst, hR1]
          · intro r hr
            rcases List.mem_cons.mp hr with rfl | hr
            · exact ⟨rfl, Or.inl ⟨by simp, rfl⟩⟩
            · exact hR2 r hr
        | some newParent =>
          obtain ⟨outC, hC, hC1, hC2⟩ := ih children
            (by simp only [List.cons.sizeOf_spec, FSEntry.dir.sizeOf_spec] at hl ⊢; omega)
            newParent (rel ++ [name])
          refine ⟨{ path := rel ++ [name], isDir := true,
                      title := dirPageTitle rootTitle (rel ++ [name]),
                      body := dirPageBody name, parent := parentId,
                      result := some newParent } :: (outC ++ outR), ?_, ?_, ?_⟩
          · simp [processEntries, processEntry, hst, hC, hR]
          · simp [specEntryList, specEntry, upsertSucceeded, hst, hC1, hR1]
          · intro r hr
            rcases List.mem_cons.mp hr with rfl | hr
            · exact ⟨rfl, Or.inl ⟨by simp, rfl⟩⟩
            · rcases List.mem_append.mp hr with hr | hr
              · rcases hC2 r hr with ⟨ht, hp⟩
                refine ⟨ht, ?_⟩
                rcases hp with ⟨hdl, hpar⟩ | hpar
                · exact Or.inr (by rw [hdl, hpar]; exact hst)
                · exact Or.inr hpar
              · exact hR2 r hr

/-- C6 amended: when no page-store call raises (the C5 exception path
never fires), `get_ai_documentation` never returns an empty text, and
the titles assigned to the expected entries are pairwise distinct, the
traversal returns normally and the page titles it publishes are exactly
— hence in bijection with — the rendered titles of the directories and
the matching (.py, non-blank) files under the root, excluding subtrees
rooted at a directory whose page creation failed, and every published
page's parent-of-record is the page of its containing directory: the
given `parentId` for top-level entries, and the id the store returned
for the enclosing directory page otherwise. -/
theorem traversal_titles_bijection (store : String → Except PyExn (Option Nat))
    (clientOk : Bool) (aiEnv : String → List AIOutcome) (rootTitle : String)
    (parentId : Nat) (children : List FSEntry)
    (hne : ∀ p c, ((get_ai_documentation clientOk (aiEnv p) c p).1).data.isEmpty = false)
    (hsafe : ∀ t e, store t ≠ .error e)
    (hinj : ((specEntryList store rootTitle []
        (sortByName (sortTreeList children))).map (renderEntryTitle rootTitle)).Nodup) :
    ∃ out,
      process_directory_recursively store clientOk aiEnv rootTitle parentId
          children = .ok out ∧
      (out.map (fun r => r.title) =
        (specEntryList store rootTitle [] (sortByName (sortTreeList children))).map
          (renderEntryTitle rootTitle)) ∧
      (out.map (fun r => r.title)).Nodup ∧
      (∀ r ∈ out,
        (r.path.dropLast = [] ∧ r.parent = parentId) ∨
          store (dirPageTitle rootTitle r.path.dropLast) = .ok (some r.parent)) := by
  obtain ⟨out, hout, h1, h2⟩ := processEntries_spec store clientOk aiEnv rootTitle
    hne hsafe (sizeOf (sortByName (sortTreeList children)))
    (sortByName (sortTreeList children)) le_rfl parentId []
  have htitles : out.map (fun r => r.title) =
      (specEntryList store rootTitle [] (sortByName (sortTreeList children))).map
        (renderEntryTitle rootTitle) := by
    have hmem := List.map_congr_left (fun r hr => (h2 r hr).1)
    rw [hmem, ← h1, List.map_map]
    rfl
  exact ⟨out, hout, htitles, by rw [htitles]; exact hinj, fun r hr => (h2 r hr).2⟩

theorem traversal_titles_bijection_witness :
    ∃ out,
      process_directory_recursively (fun _ => .ok (some 1)) true
          (fun _ => [.success "doc"]) "Project Documentation" 0
          [.file "main.py" "import os", .dir "utils" [.file "helpers.py" "x = 1"]]
        = .ok out ∧
      (out.map (fun r => r.title) =
        (specEntryList (fun _ => .ok (some 1)) "Project Documentation" []
          (sortByName (sortTreeList [.file "main.py" "import os",
            .dir "utils" [.file "helpers.py" "x = 1"]]))).map
          (renderEntryTitle "Project Documentation")) ∧
      (out.map (fun r => r.title)).Nodup ∧
      (∀ r ∈ out,
        (r.path.dropLast = ([] : List String) ∧ r.parent = 0) ∨
          (Except.ok (some 1) : Except PyExn (Option Nat)) = .ok (some r.parent)) :=
  traversal_titles_bijection (fun _ => .ok (some 1)) true
    (fun _ => [.success "doc"]) "Project Documentation" 0
    [.file "main.py" "import os", .dir "utils" [.file "helpers.py" "x = 1"]]
    (fun p c => rfl) (fun t e => by simp) (by decide)

/-- C6 counterexample: the claimed bijection fails as stated — a
directory named "b.py" under directory "a" and a file named " b.py"
under directory "a " render the same page title, so a tree with four
entries (all of whose page creations succeed, nothing raising) produces
only three distinct titles. -/
theorem traversal_title_collision :
    ((process_directory_recursively (fun _ => .ok (some 1)) true
        (fun _ => [.success "doc"]) "T" 0
        [.dir "a" [.dir "b.py" []], .dir "a " [.file " b.py" "x = 1"]]).toOption.map
      (fun out => out.map (fun r => r.title)) =
      some ["T: a", "T: a / b.py", "T: a ", "T: a / b.py"]) ∧
    (((process_directory_recursively (fun _ => .ok (some 1)) true
        (fun _ => [.success "doc"]) "T" 0
        [.dir "a" [.dir "b.py" []], .dir "a " [.file " b.py" "x = 1"]]).toOption.map
      (fun out => (out.map (fun r => r.title)).dedup.length) = some 3) ∧
    ((specEntryList (fun _ => .ok (some 1)) "T" []
        (sortByName (sortTreeList
          [.dir "a" [.dir "b.py" []], .dir "a " [.file " b.py" "x = 1"]]))).length = 4)) := by
  exact ⟨by decide, by decide, by decide⟩

/-- Every record of a normally-returning traversal that is not a
directory page carries as body the text `get_ai_documentation` returned
for its relative path and some content. -/
theorem processEntries_file_body (store : String → Except PyExn (Option Nat))
    (clientOk : Bool) (aiEnv : String → List AIOutcome) (rootTitle : String) :
    ∀ (n : Nat) (l : List FSEntry), sizeOf l ≤ n →
    ∀ (parentId : Nat) (rel : List String) (out : List Pub),
      processEntries store clientOk aiEnv rootTitle parentId rel l = .ok out →
      ∀ r ∈ out, r.isDir = false →
      ∃ c, r.body = (get_ai_documentation clientOk
        (aiEnv (String.intercalate "/" r.path)) c
        (String.intercalate "/" r.path)).1 := by
  intro n
  induction n with
  | zero =>
    intro l hl
    exfalso
    cases l with
    | nil => simp at hl
    | cons e es => simp only [List.cons.sizeOf_spec] at hl; omega
  | succ n ih =>
    intro l hl parentId rel out hout
    match l with
    | [] =>
      simp only [processEntries, Except.ok.injEq] at hout
      subst hout
      intro r hr
      simp at hr
    | .file name content :: rest =>
      have hrest := ih rest (by simp only [List.cons.sizeOf_spec] at hl; omega) parentId rel
      simp only [processEntries] at hout
      cases hpe : processEntry store clientOk aiEnv rootTitle parentId rel
          (.file name content) with
      | error ex => simp [hpe] at hout
      | ok pubs =>
        cases hre : processEntries store clientOk aiEnv rootTitle parentId rel rest with
        | error ex => simp [hpe, hre] at hout
        | ok outR =>
          simp only [hpe, hre, Except.ok.injEq] at hout
          subst hout
          intro r hr hfile
          rcases List.mem_append.mp hr with hr | hr
          · simp only [processEntry] at hpe
            by_cases hpy : pyEndsWith name ".py" = true
            · by_cases hbl : pyIsBlank content = true
              · simp only [hpy, hbl, if_true, Except.ok.injEq] at hpe
                subst hpe
                simp at hr
              · simp only [hpy, hbl, if_true, Bool.false_eq_true, if_false] at hpe
                by_cases hb : (!pyTruthy ((get_ai_documentation clientOk
                    (aiEnv (String.intercalate "/" (rel ++ [name]))) content
                    (String.intercalate "/" (rel ++ [name]))).1)) = true
                · simp only [hb, if_true, Except.ok.injEq] at hpe
                  subst hpe
                  simp at hr
                · simp only [hb, Bool.false_eq_true, if_false] at hpe
                  cases hst : store (filePageTitle rootTitle (rel ++ [name])) with
                  | error ex2 =>
                    simp only [hst, Except.ok.injEq] at hpe
                    subst hpe
                    simp at hr
                  | ok res =>
                    simp only [hst, Except.ok.injEq] at hpe
                    subst hpe
                    simp only [List.mem_singleton] at hr
                    subst hr
                    exact ⟨content, rfl⟩
            · simp only [hpy, Bool.false_eq_true, if_false, Except.ok.injEq] at hpe
              subst hpe
              simp at hr
          · exact hrest outR hre r hr hfile
    | .dir name children :: rest =>
      have hrest := ih rest
        (by simp only [List.cons.sizeOf_spec, FSEntry.dir.sizeOf_spec] at hl ⊢; omega)
        parentId rel
      have hchild := ih children
        (by simp only [List.cons.sizeOf_spec, FSEntry.dir.sizeOf_spec] at hl ⊢; omega)
      simp only [processEntries] at hout
      cases hpe : processEntry store clientOk aiEnv rootTitle parentId rel
          (.dir name children) with
      | error ex => simp [hpe] at hout
      | ok pubs =>
        cases hre : processEntries store clientOk aiEnv rootTitle parentId rel rest with
        | error ex => simp [hpe, hre] at hout
        | ok outR =>
          simp only [hpe, hre, Except.ok.injEq] at hout
          subst hout
          intro r hr hfile
          rcases List.mem_append.mp hr with hr | hr
          · simp only [processEntry] at hpe
            cases hst : store (dirPageTitle rootTitle (rel ++ [name])) with
            | error ex2 => simp [hst] at hpe
            | ok pres =>
              cases pres with
              | none =>
                simp only [hst, Except.ok.injEq] at hpe
                subst hpe
                simp only [List.mem_singleton] at hr
                subst hr
                simp at hfile
              | some newParent =>
                cases hch : processEntries store clientOk aiEnv rootTitle newParent
                    (rel ++ [name]) children with
                | error ex3 => simp [hst, hch] at hpe
                | ok outC =>
                  simp only [hst, hch, Except.ok.injEq] at hpe
                  subst hpe
                  rcases List.mem_cons.mp hr with rfl | hr
                  · simp at hfile
                  · exact hchild newParent (rel ++ [name]) outC hch r hr hfile
          · exact hrest outR hre r hr hfile

/-- C7 amended: failures that `create_or_update_confluence_page` reports
by returning `None` are locally contained, but a raising upsert is not:
(1) when two sibling segments each return normally their concatenation
does too, with outputs concatenated — earlier siblings' contained
failures never affect later ones; (2) a directory page whose upsert
returns `None` yields exactly that directory's record, its subtree is
skipped, and the remaining siblings are still processed; (3) a published
file all of whose summarization attempts failed carries one of the fixed
error placeholders as its body rather than being skipped; (4) a
directory upsert that raises (the C5 lookup bug) propagates through the
try-less directory branch and aborts the traversal; (5) a file upsert
that raises is caught by the per-file `try` and only that file is
skipped. -/
theorem traversal_failures_locally_contained
    (store : String → Except PyExn (Option Nat)) (clientOk : Bool)
    (aiEnv : String → List AIOutcome) (rootTitle : String)
    (parentId : Nat) (rel : List String) (name content : String)
    (children ys l xs zs : List FSEntry) (a b out : List Pub) (r : Pub)
    (ex : PyExn) :
    (processEntries store clientOk aiEnv rootTitle parentId rel xs = .ok a →
      processEntries store clientOk aiEnv rootTitle parentId rel zs = .ok b →
      processEntries store clientOk aiEnv rootTitle parentId rel (xs ++ zs) =
        .ok (a ++ b)) ∧
    (store (dirPageTitle rootTitle (rel ++ [name])) = .ok none →
      processEntries store clientOk aiEnv rootTitle parentId rel ys = .ok b →
      processEntries store clientOk aiEnv rootTitle parentId rel
          (.dir name children :: ys) =
        .ok ({ path := rel ++ [name], isDir := true,
               title := dirPageTitle rootTitle (rel ++ [name]),
               body := dirPageBody name, parent := parentId,
               result := none } :: b)) ∧
    (processEntries store clientOk aiEnv rootTitle parentId rel l = .ok out →
      r ∈ out → r.isDir = false → clientOk = true →
      (∀ o ∈ aiEnv (String.intercalate "/" r.path), isSuccess o = false) →
      r.body = aiRetriesExhaustedText (String.intercalate "/" r.path) ∨
        ∃ m, r.body = aiErrorText (String.intercalate "/" r.path) m) ∧
    (store (dirPageTitle rootTitle (rel ++ [name])) = .error ex →
      processEntries store clientOk aiEnv rootTitle parentId rel
          (.dir name children :: ys) = .error ex) ∧
    (store (filePageTitle rootTitle (rel ++ [name])) = .error ex →
      processEntry store clientOk aiEnv rootTitle parentId rel
          (.file name content) = .ok []) := by
  refine ⟨?_, ?_, ?_, ?_, ?_⟩
  · intro h1 h2
    induction xs generalizing a with
    | nil =>
      simp only [processEntries, Except.ok.injEq] at h1
      subst h1
      simpa using h2
    | cons e xs2 ih =>
      simp only [List.cons_append, processEntries] at h1 ⊢
      cases hpe : processEntry store clientOk aiEnv rootTitle parentId rel e with
      | error ex2 => simp [hpe] at h1
      | ok pubs =>
        cases hx2 : processEntries store clientOk aiEnv rootTitle parentId rel xs2 with
        | error ex2 => simp [hpe, hx2] at h1
        | ok a2 =>
          simp only [hpe, hx2, Except.ok.injEq] at h1
          subst h1
          simp [hpe, ih a2 hx2, List.append_assoc]
  · intro h hys
    simp [processEntries, processEntry, h, hys]
  · intro hout hr hfile hclient hfail
    obtain ⟨c, hc⟩ := processEntries_file_body store clientOk aiEnv rootTitle
      (sizeOf l) l le_rfl parentId rel out hout r hr hfile
    rw [hc]
    subst hclient
    simp only [get_ai_documentation, if_true]
    exact aiLoop_no_success_marker _ _ _ hfail
  · intro h
    simp [processEntries, processEntry, h]
  · intro h
    simp only [processEntry]
    split_ifs <;> simp [h]

theorem traversal_failures_locally_contained_witness :
    ({ path := ["f.py"], isDir := false, title := "T: f.py",
       body := aiErrorText "f.py" "boom", parent := 0,
       result := none } : Pub).body =
        aiRetriesExhaustedText (String.intercalate "/" ["f.py"]) ∨
      ∃ m, ({ path := ["f.py"], isDir := false, title := "T: f.py",
              body := aiErrorText "f.py" "boom", parent := 0,
              result := none } : Pub).body =
        aiErrorText (String.intercalate "/" ["f.py"]) m :=
  (traversal_failures_locally_contained (fun _ => .ok none) true
      (fun _ => [.otherException "boom"]) "T" 0 [] "d" "c" [] []
      [.file "f.py" "x = 1"] [] [] [] []
      [{ path := ["f.py"], isDir := false, title := "T: f.py",
         body := aiErrorText "f.py" "boom", parent := 0, result := none }]
      { path := ["f.py"], isDir := false, title := "T: f.py",
        body := aiErrorText "f.py" "boom", parent := 0, result := none }
      PyExn.unboundLocalError).2.2.1
    (by rfl) (by decide) rfl rfl (by decide)

/-- C7 counterexample to the claim as stated: a directory upsert that
raises — the C5 lookup bug on a connection error — propagates through
the try-less directory branch and aborts the whole traversal instead of
skipping the subtree and continuing: the sibling file "f.py" is never
processed and the walk ends in the uncaught exception. -/
theorem traversal_aborts_on_raising_dir_upsert :
    process_directory_recursively (fun _ => .error .unboundLocalError) true
        (fun _ => [.success "doc"]) "T" 0
        [.dir "d" [], .file "f.py" "x = 1"] =
      .error PyExn.unboundLocalError := by rfl

/-- Truthiness of one required environment variable inside the
`all([...])` check (doc_generator.py line 357): set and non-empty. -/
def envTruthy : Option String → Bool
  | none => false
  | some s => pyTruthy s

/-- The five required configuration variables read at module load
(doc_generator.py lines 16-52). -/
structure MainEnv where
  openaiApiKey : Option String
  confluenceUrl : Option String
  confluenceEmail : Option String
  confluenceApiToken : Option String
  confluenceSpaceKey : Option String
deriving Repr, DecidableEq

/-- The `all([...])` configuration check (doc_generator.py line 357). -/
def requiredConfigPresent (env : MainEnv) : Bool :=
  envTruthy env.openaiApiKey && envTruthy env.confluenceUrl &&
    envTruthy env.confluenceEmail && envTruthy env.confluenceApiToken &&
    envTruthy env.confluenceSpaceKey

/-- The `__main__` block (doc_generator.py lines 355-427): exits 1 when a
required variable is missing or empty (line 360), when the OpenAI client
was not initialized (line 364), when the root page upsert returned
`None` (line 427), or when the resolved code path is not a directory
(line 423).  Otherwise it runs the traversal: if an exception escapes it
(the C5 lookup bug raising inside a directory upsert) nothing in
`__main__` catches it, so the interpreter prints a traceback and the
process exits 1; if the traversal returns, the script completes and
exits 0.  Returns the exit code together with the pages published. -/
def docGeneratorMain (env : MainEnv) (clientOk : Bool)
    (rootPageId : Option Nat) (pathIsDir : Bool)
    (store : String → Except PyExn (Option Nat))
    (aiEnv : String → List AIOutcome) (rootTitle : String)
    (children : List FSEntry) : Nat × List Pub :=
  if !requiredConfigPresent env then (1, [])
  else if !clientOk then (1, [])
  else
    match rootPageId with
    | some rootId =>
      if pathIsDir then
        match process_directory_recursively store clientOk aiEnv rootTitle
            rootId children with
        | .ok pubs => (0, pubs)
        | .error _ => (1, [])
      else (1, [])
    | none => (1, [])

/-- C8 amended: the process exits 0 exactly when the required
configuration is present, the summarization client initialized, the
configured code path is a valid directory, the root page was published,
and no exception escapes the traversal (the C5 lookup bug raising inside
a directory upsert is uncaught in `__main__` and exits 1); contained
failures of individual files or subtrees — upserts returning `None`,
summarizer failures — never change the exit code, since the iff holds
for every store, summarizer and tree. -/
theorem main_exit_zero_iff (env : MainEnv) (clientOk : Bool)
    (rootPageId : Option Nat) (pathIsDir : Bool)
    (store : String → Except PyExn (Option Nat))
    (aiEnv : String → List AIOutcome) (rootTitle : String)
    (children : List FSEntry) :
    (docGeneratorMain env clientOk rootPageId pathIsDir store aiEnv rootTitle
        children).1 = 0 ↔
      (requiredConfigPresent env = true ∧ clientOk = true ∧ pathIsDir = true ∧
        ∃ rootId out, rootPageId = some rootId ∧
          process_directory_recursively store clientOk aiEnv rootTitle rootId
            children = .ok out) := by
  cases hc : requiredConfigPresent env with
  | false => simp [docGeneratorMain, hc]
  | true =>
    cases clientOk with
    | false => simp [docGeneratorMain, hc]
    | true =>
      cases rootPageId with
      | none => simp [docGeneratorMain, hc]
      | some rootId =>
        cases pathIsDir with
        | false => simp [docGeneratorMain, hc]
        | true =>
          cases htrav : process_directory_recursively store true aiEnv
              rootTitle rootId children with
          | error ex => simp [docGeneratorMain, hc, htrav]
          | ok pubs => simp [docGeneratorMain, hc, htrav]

/-- C8 counterexample: with all configuration present, the client
initialized, and the root page published, a configured code path that is
not a valid directory still makes the process exit 1, refuting "in all
other cases it exits zero". -/
theorem main_exit_nonzero_on_invalid_path :
    (docGeneratorMain
      { openaiApiKey := some "k", confluenceUrl := some "u",
        confluenceEmail := some "e", confluenceApiToken := some "t",
        confluenceSpaceKey := some "s" } true (some 7) false
      (fun _ => .ok (some 1)) (fun _ => [.success "doc"]) "T" []).1 = 1 := by rfl

end DocGen

namespace AppMain

/-- Default greeting used when the `CUSTOM_MESSAGE` environment variable
is unset (src/app/main.py lines 24-25). -/
def defaultCustomMessage : String :=
  "Welcome to the App deployed via GitHub Actions!"

/-- The `hello` handler for `GET /` (src/app/main.py lines 8-27).
`num1` and `num2` are the two `random.randint(1, 100)` draws, `opIsAdd`
is whether `random.choice(['add', 'subtract'])` picked `'add'`, and
`customMessageEnv` is the `CUSTOM_MESSAGE` environment variable. -/
def hello (num1 num2 : Int) (opIsAdd : Bool)
    (customMessageEnv : Option String) : String :=
  let result := if opIsAdd then num1 + num2 else num1 - num2
  let opSymbol := if opIsAdd then "+" else "-"
  let customMessage := customMessageEnv.getD defaultCustomMessage
  "<h1>" ++ customMessage ++ "</h1><p>Random Logic: " ++ toString num1 ++ " "
    ++ opSymbol ++ " " ++ toString num2 ++ " = " ++ toString result ++ "</p>"

/-- C9: whatever values the random draws in [1, 100] take and whichever
operation is chosen, the `GET /` response is an HTML body containing the
configured message (the default when `CUSTOM_MESSAGE` is unset) and an
equation whose displayed result is `num1 + num2` for add and
`num1 - num2` for subtract. -/
theorem hello_message_and_equation (num1 num2 : Int) (opIsAdd : Bool)
    (env : Option String)
    (h1 : 1 ≤ num1 ∧ num1 ≤ 100) (h2 : 1 ≤ num2 ∧ num2 ≤ 100) :
    ∃ pre post, hello num1 num2 opIsAdd env =
        pre ++ env.getD defaultCustomMessage ++ post ∧
      pre = "<h1>" ∧
      post = "</h1><p>Random Logic: " ++ toString num1 ++ " "
        ++ (if opIsAdd then "+" else "-") ++ " " ++ toString num2 ++ " = "
        ++ toString (if opIsAdd then num1 + num2 else num1 - num2) ++ "</p>" := by
  refine ⟨"<h1>", _, ?_, rfl, rfl⟩
  cases opIsAdd <;> simp [hello, String.append_assoc]

theorem hello_message_and_equation_witness :
    ∃ pre post, hello 3 5 true (some "Hi") =
        pre ++ (some "Hi").getD defaultCustomMessage ++ post ∧
      pre = "<h1>" ∧
      post = "</h1><p>Random Logic: " ++ toString (3 : Int) ++ " "
        ++ (if true then "+" else "-") ++ " " ++ toString (5 : Int) ++ " = "
        ++ toString (if true then (3 : Int) + 5 else 3 - 5) ++ "</p>" :=
  hello_message_and_equation 3 5 true (some "Hi") (by decide) (by decide)

end AppMain
